import Mathlib

/-!
Verification of the myrna-poster segment-delivery pipeline
(src/src/poster/watch.py) against its natural-language specification.

The Python program watches a directory, and on each `closed` filesystem
event whose path matches the regex pattern backslash-dot ts dollar it
sends the file to a remote API, classifies the JSON acknowledgment, and
deletes the local file only on full success, retrying failures with a
random 1000-2000 ms backoff.

The shallow embedding below translates the source functions:
  - `segment_checksum` (watch.py lines 75-87): streaming SHA-1 over
    1 MiB chunks, modelled with an explicit incremental SHA-1 context;
  - `SegmentSender.send` (lines 106-131): one delivery attempt over an
    explicit filesystem and metrics state, plus the retrying decorator's
    loop (`@retry(wait_random_min=1000, wait_random_max=2000)`, line 107);
  - the three raise_* helpers (lines 54-73);
  - `NewSegmentHandler.on_closed` / `on_any_event` (lines 133-144);
  - `SegmentSender._api_session` (lines 96-104) and the module-level
    startup that constructs the sender before any event is handled.

Remote behavior (HTTP responses) and the random source are parameters:
an attempt takes the acknowledgment it would receive, and the retry
loop takes a stream of acknowledgments and a stream of random draws.
-/

/-- The decoded JSON acknowledgment of one upload
(watch.py line 119 `result = response.json()`).  The `start_time` field
is never read by the delivery logic and is omitted.  `duration` is an
exact rational stand-in for the JSON float. -/
structure Response where
  checksum : Bool
  duration : Rat
  db_stored : Bool
deriving DecidableEq

/-- The tri-state-plus-success delivery outcome of the specification's
Acknowledgment Interpreter. -/
inductive DeliveryOutcome
| ChecksumRejected
| NotYetDurable
| DbNotUpdated
| Delivered
deriving DecidableEq

/-- The Acknowledgment Interpreter: the branch structure of
`SegmentSender.send`, watch.py lines 122-128
(`if not result["checksum"]: ... elif not result["duration"] > 0.0: ...
elif not result["db_stored"]: ... else: ...`). -/
def classify (r : Response) : DeliveryOutcome :=
  if r.checksum = false then DeliveryOutcome.ChecksumRejected
  else if ¬ r.duration > 0 then DeliveryOutcome.NotYetDurable
  else if r.db_stored = false then DeliveryOutcome.DbNotUpdated
  else DeliveryOutcome.Delivered

/-- Metrics state: one field per statsd counter/gauge the program
emits, named after the statsd keys in watch.py. -/
structure Stats where
  checksum_exception : Nat
  file_storage_exception : Nat
  db_update_exception : Nat
  segment_sent : Nat
  file_closed : Nat
  remote_segment_duration : Option Rat
deriving DecidableEq

/-- All-zero metrics state. -/
def stats0 : Stats := ⟨0, 0, 0, 0, 0, none⟩

/-- The local directory: an association list from path to file bytes
(bytes as Nat values). -/
def Fs : Type := List (String × List Nat)

instance : DecidableEq Fs := inferInstanceAs (DecidableEq (List (String × List Nat)))

/-- Models `os.remove(filename)` (watch.py line 131). -/
def removeFile (filename : String) (fs : Fs) : Fs :=
  List.filter (fun p => p.1 != filename) fs

/-- The exceptions a delivery attempt can raise.  `ioError` is the
FileNotFoundError from `open` inside `segment_checksum`; `networkError`
stands for a requests/JSON-decoding failure of the post;
the other two are the classified failures of watch.py lines 51-66.
Note there is no constructor for DbUpdateException: the class exists in
the source (line 68) but no statement ever raises it. -/
inductive SendExn
| ioError
| networkError
| checksumException
| fileStoreException
deriving DecidableEq

/-- Models `raise_checksum_exception` (watch.py lines 54-57): increments the
checksum.exception counter, then raises ChecksumException. -/
def raise_checksum_exception (st : Stats) : Stats × Option SendExn :=
  ({ st with checksum_exception := st.checksum_exception + 1 },
   some SendExn.checksumException)

/-- Models `raise_file_store_exception` (watch.py lines 63-66): increments the
file.storage.exception counter, then raises FileStoreException. -/
def raise_file_store_exception (st : Stats) : Stats × Option SendExn :=
  ({ st with file_storage_exception := st.file_storage_exception + 1 },
   some SendExn.fileStoreException)

/-- Models `raise_db_update_exception` (watch.py lines 71-73): increments the
db.update.exception counter and returns.  The function body contains no
raise statement, so no exception is produced. -/
def raise_db_update_exception (st : Stats) : Stats × Option SendExn :=
  ({ st with db_update_exception := st.db_update_exception + 1 },
   none)

/-! ### The Checksum Engine: `segment_checksum` (watch.py lines 75-87)

The Python function streams the file in 1 MiB chunks through an
incremental `hashlib.sha1()` object and returns `hexdigest()`.  The
embedding models the hashlib object faithfully as an incremental
context: five 32-bit chaining words, a buffer of fewer than 64 pending
bytes, and the byte count so far.  `update` consumes whole 64-byte
blocks through the SHA-1 compression function and keeps the remainder
buffered; `hexdigest` appends the standard padding and renders the
final words as 40 lowercase hex characters.  Words are Nat values
reduced mod 2^32; bytes are Nat values below 256. -/

/-- Reduce a word mod 2^32. -/
def w32 (n : Nat) : Nat := n % 4294967296

/-- Rotate a 32-bit word left by `k` (for `n < 2^32`, `k ≤ 32`). -/
def rotl (k n : Nat) : Nat :=
  (n * 2 ^ k + n / 2 ^ (32 - k)) % 4294967296

/-- The SHA-1 round function for round `i` (bitwise complement of a
32-bit word `b` is `4294967295 - b`). -/
def sha1F (i b c d : Nat) : Nat :=
  if i < 20 then (b &&& c) ||| ((4294967295 - b) &&& d)
  else if i < 40 then b ^^^ c ^^^ d
  else if i < 60 then (b &&& c) ||| (b &&& d) ||| (c &&& d)
  else b ^^^ c ^^^ d

/-- The SHA-1 round constants. -/
def sha1K (i : Nat) : Nat :=
  if i < 20 then 1518500249
  else if i < 40 then 1859775393
  else if i < 60 then 2400959708
  else 3395469782

/-- The sixteen big-endian 32-bit words of one 64-byte block. -/
def blockWords (block : List Nat) : List Nat :=
  (List.range 16).map (fun i =>
    block.getD (4 * i) 0 * 16777216 + block.getD (4 * i + 1) 0 * 65536 +
    block.getD (4 * i + 2) 0 * 256 + block.getD (4 * i + 3) 0)

/-- The 80-word message schedule of one block. -/
def sha1Schedule (block : List Nat) : List Nat :=
  (List.range 64).foldl (fun ws _ =>
    ws ++ [rotl 1 ((ws.getD (ws.length - 3) 0 ^^^ ws.getD (ws.length - 8) 0) ^^^
      (ws.getD (ws.length - 14) 0 ^^^ ws.getD (ws.length - 16) 0))])
    (blockWords block)

/-- The SHA-1 compression function: chaining words + one 64-byte block
to new chaining words. -/
def sha1Compress (hs : List Nat) (block : List Nat) : List Nat :=
  let ws := sha1Schedule block
  let a0 := hs.getD 0 0
  let b0 := hs.getD 1 0
  let c0 := hs.getD 2 0
  let d0 := hs.getD 3 0
  let e0 := hs.getD 4 0
  let fin := (List.range 80).foldl
    (fun s i =>
      let temp := w32 (rotl 5 s.1 + sha1F i s.2.1 s.2.2.1 s.2.2.2.1 +
        s.2.2.2.2 + sha1K i + ws.getD i 0)
      (temp, s.1, rotl 30 s.2.1, s.2.2.1, s.2.2.2.1))
    (a0, b0, c0, d0, e0)
  [w32 (a0 + fin.1), w32 (b0 + fin.2.1), w32 (c0 + fin.2.2.1),
   w32 (d0 + fin.2.2.2.1), w32 (e0 + fin.2.2.2.2)]

/-- The initial SHA-1 chaining values. -/
def sha1InitWords : List Nat :=
  [1732584193, 4023233417, 2562383102, 271733878, 3285377520]

/-- The incremental hashlib.sha1 object: chaining words, pending buffer
(always fewer than 64 bytes), and total byte count. -/
structure Sha1Ctx where
  hs : List Nat
  buf : List Nat
  len : Nat
deriving DecidableEq

/-- Consume the leading complete 64-byte blocks of `buf` through the
compression function; return the new chaining words and the remainder
(fewer than 64 bytes). -/
def processBlocks (hs : List Nat) (buf : List Nat) : List Nat × List Nat :=
  if h : 64 ≤ buf.length then
    processBlocks (sha1Compress hs (buf.take 64)) (buf.drop 64)
  else (hs, buf)
termination_by buf.length
decreasing_by simp only [List.length_drop]; omega

/-- A fresh `hashlib.sha1()` object (watch.py line 79). -/
def sha1_init : Sha1Ctx := ⟨sha1InitWords, [], 0⟩

/-- Models `segment_sha1.update(data)` (watch.py line 85). -/
def sha1_update (c : Sha1Ctx) (data : List Nat) : Sha1Ctx :=
  ⟨(processBlocks c.hs (c.buf ++ data)).1,
   (processBlocks c.hs (c.buf ++ data)).2,
   c.len + data.length⟩

/-- The 8-byte big-endian encoding of the bit length. -/
def lenBytes (bits : Nat) : List Nat :=
  (List.range 8).map (fun i => bits / 2 ^ (8 * (7 - i)) % 256)

/-- Standard SHA-1 padding for a message of `len` bytes: 0x80, zeros to
56 mod 64, then the bit length. -/
def sha1Padding (len : Nat) : List Nat :=
  128 :: (List.replicate ((120 - (len + 1) % 64) % 64) 0 ++ lenBytes (len * 8))

/-- Lowercase hex digit. -/
def hexChar (n : Nat) : Char :=
  if n < 10 then Char.ofNat (48 + n) else Char.ofNat (87 + n)

/-- Eight lowercase hex digits of a 32-bit word, most significant
first. -/
def wordHex (w : Nat) : List Char :=
  (List.range 8).map (fun i => hexChar (w / 16 ^ (7 - i) % 16))

/-- Models `segment_sha1.hexdigest()` (watch.py line 87): pad, run the final
blocks, render 40 lowercase hex characters. -/
def sha1_hexdigest (c : Sha1Ctx) : String :=
  String.mk (((processBlocks c.hs (c.buf ++ sha1Padding c.len)).1.map wordHex).flatten)

/-- The read loop of watch.py lines 80-85: repeatedly read `bufSize`
bytes and feed them to `update`, stopping on an empty read.  (A zero
`bufSize` reads empty at once and stops, like Python's `f.read(0)`.) -/
def hashChunksFrom (bufSize : Nat) (c : Sha1Ctx) (content : List Nat) :
    Sha1Ctx :=
  if h : content = [] ∨ bufSize = 0 then c
  else hashChunksFrom bufSize (sha1_update c (content.take bufSize))
    (content.drop bufSize)
termination_by content.length
decreasing_by
  simp only [List.length_drop]
  push_neg at h
  have h1 : 0 < content.length := List.length_pos.mpr h.1
  omega

/-- Models `segment_checksum` (watch.py lines 75-87): stream the file contents
in chunks of `BUF_SIZE = 1048576` and return the hex digest. -/
def segment_checksum (content : List Nat) : String :=
  sha1_hexdigest (hashChunksFrom 1048576 sha1_init content)

/-- The URL built at watch.py line 111:
`f"{self.api_url}segment/upload/{self.camera}/"` — plain concatenation,
no separator inserted between the base URL and the path. -/
def build_upload_url (api_url camera : String) : String :=
  api_url ++ "segment/upload/" ++ camera ++ "/"

/-- The upload request of watch.py lines 113-117: multipart body with
the raw file bytes under field `segment` and the hex checksum under
field `sha1`. -/
structure UploadRequest where
  url : String
  files : List (String × List Nat)
  form : List (String × String)
deriving DecidableEq

def upload_request (api_url camera : String) (content : List Nat)
    (sha1 : String) : UploadRequest :=
  { url := build_upload_url api_url camera
  , files := [("segment", content)]
  , form := [("sha1", sha1)] }

/-- The sender configuration fields read by `send` (watch.py lines
91-94): base API URL and camera name. -/
structure Sender where
  api_url : String
  camera : String

/-- Result of one body execution of `send` (before the retrying
decorator): the filesystem and metrics afterwards, the exception raised
if any, and the upload request issued if the attempt got that far. -/
structure AttemptOut where
  fs : Fs
  st : Stats
  exn : Option SendExn
  req : Option UploadRequest

/-- One execution of the body of `SegmentSender.send`
(watch.py lines 108-131), with the acknowledgment the server would
return passed in as `resp` (`none` = the post or `response.json()`
raised).  Steps, in source order:
1. `segment_checksum(filename)` opens the file: missing file raises
   FileNotFoundError (ioError) before anything else happens;
2. the post is issued (the request is recorded in `req`);
3. the acknowledgment is classified by the if/elif chain of lines
   122-131: bad checksum and non-positive duration raise after
   incrementing their counters; `db_stored` false only increments its
   counter (`raise_db_update_exception` has no raise statement); the
   success branch increments segment_sent, sets the duration gauge and
   removes the file. -/
def send_attempt (sender : Sender) (resp : Option Response)
    (filename : String) (fs : Fs) (st : Stats) : AttemptOut :=
  match List.lookup filename fs with
  | none => ⟨fs, st, some SendExn.ioError, none⟩
  | some content =>
    let req := upload_request sender.api_url sender.camera content
      (segment_checksum content)
    match resp with
    | none => ⟨fs, st, some SendExn.networkError, some req⟩
    | some result =>
      if result.checksum = false then
        let p := raise_checksum_exception st
        ⟨fs, p.1, p.2, some req⟩
      else if ¬ result.duration > 0 then
        let p := raise_file_store_exception st
        ⟨fs, p.1, p.2, some req⟩
      else if result.db_stored = false then
        let p := raise_db_update_exception st
        ⟨fs, p.1, p.2, some req⟩
      else
        ⟨removeFile filename fs,
         { st with segment_sent := st.segment_sent + 1,
                   remote_segment_duration := some result.duration },
         none, some req⟩

/-- One backoff wait of the retrying decorator
(`@retry(wait_random_min=1000, wait_random_max=2000)`, watch.py line
107): the library draws `random.randint(1000, 2000)` milliseconds;
`r` is the underlying random draw. -/
def retry_wait (r : Nat) : Nat := 1000 + r % 1001

/-- Result of running the retry loop for a bounded number of attempts:
either the body returned normally (with the waits performed before
then), or the fuel ran out with the loop still retrying.  The decorator
has no stop condition, so the real loop never gives up on its own. -/
inductive LoopResult
| returned (fs : Fs) (st : Stats) (waits : List Nat)
| running (fs : Fs) (st : Stats) (waits : List Nat)

/-- Models `SegmentSender.send` as wrapped by the retrying decorator: run the
body; if it raises, wait `retry_wait (rand i)` and run it again, with
no attempt limit.  `resps i` is the acknowledgment the i-th attempt
would receive, `fuel` bounds how far we unroll the (unbounded) loop. -/
def send (sender : Sender) (resps : Nat → Option Response)
    (rand : Nat → Nat) (filename : String) (i fuel : Nat) (fs : Fs)
    (st : Stats) : LoopResult :=
  match fuel with
  | 0 => LoopResult.running fs st []
  | Nat.succ fuel' =>
    let out := send_attempt sender (resps i) filename fs st
    match out.exn with
    | none => LoopResult.returned out.fs out.st []
    | some _ =>
      match send sender resps rand filename (i + 1) fuel' out.fs out.st with
      | LoopResult.returned fs' st' ws =>
        LoopResult.returned fs' st' (retry_wait (rand i) :: ws)
      | LoopResult.running fs' st' ws =>
        LoopResult.running fs' st' (retry_wait (rand i) :: ws)

/-- Filesystem event kinds delivered by the watchdog collaborator. -/
inductive EventKind
| created
| modified
| closed
| deleted
| other
deriving DecidableEq

/-- Models `re.search` on `event.src_path` with the pattern
backslash-dot ts dollar (watch.py line 139): the path ends in ".ts",
or — because a Python dollar also matches just before a trailing
newline — ends in ".ts" followed by one final newline. -/
def matches_ts (path : String) : Bool :=
  List.isSuffixOf ".ts".data path.data || List.isSuffixOf ".ts\n".data path.data

/-- Models `NewSegmentHandler.on_closed` (watch.py lines 138-144): on a match,
increment the file_closed counter and hand the path to `send` (the
returned `some path` is the deliver invocation); otherwise only a debug
log line, no state change and no send. -/
def on_closed (path : String) (st : Stats) : Stats × Option String :=
  if matches_ts path then
    ({ st with file_closed := st.file_closed + 1 }, some path)
  else (st, none)

/-- Event dispatch: watchdog routes `closed` events to `on_closed`;
every other kind only reaches `on_any_event` (watch.py lines 135-136),
which logs and does nothing. -/
def on_event (kind : EventKind) (path : String) (st : Stats) :
    Stats × Option String :=
  match kind with
  | EventKind.closed => on_closed path st
  | _ => (st, none)

/-- What the login endpoint produced: a network failure, a non-JSON
body, or a JSON object (as key/value pairs). -/
inductive LoginResult
| netError
| badJson
| json (fields : List (String × String))

/-- The authenticated session: watch.py line 103 stores the token in
the X-CSRFToken header. -/
structure Session where
  token : String
deriving DecidableEq

/-- Models `SegmentSender._api_session` (watch.py lines 96-104):
`r = session.get(token_url)` followed by `token = r.json()["token"]`.
A transport error, a non-JSON body, or a JSON object without a "token"
key each raise out of the function — nothing here catches or retries
(the retry decorator is only on `send`). -/
def _api_session (login : LoginResult) : Except String Session :=
  match login with
  | LoginResult.netError => Except.error "connection error"
  | LoginResult.badJson => Except.error "json decode error"
  | LoginResult.json fields =>
    match List.lookup "token" fields with
    | none => Except.error "KeyError: token"
    | some t => Except.ok { token := t }

/-- Models `SegmentSender.__init__` (watch.py lines 91-94): constructing the
sender performs the login; a login failure propagates. -/
structure SegmentSenderS where
  api_url : String
  session : Session
  camera : String

def segment_sender_init (api_url camera : String) (login : LoginResult) :
    Except String SegmentSenderS :=
  match _api_session login with
  | Except.error e => Except.error e
  | Except.ok s => Except.ok ⟨api_url, s, camera⟩

/-- Module-level startup and event loop (watch.py lines 133-155): the
sender is constructed once, at class-body evaluation time, before the
observer starts; if that construction raises, the interpreter exits
with a non-zero status (modelled as `Except.error`) and no event is
ever dispatched.  On success the events are dispatched in order; the
returned list records the paths handed to `send`. -/
def program_run (api_url camera : String) (login : LoginResult)
    (events : List (EventKind × String)) (st : Stats) :
    Except String (Stats × List String) :=
  match segment_sender_init api_url camera login with
  | Except.error e => Except.error e
  | Except.ok _ =>
    Except.ok (events.foldl (fun acc e =>
      let r := on_event e.1 e.2 acc.1
      (r.1, acc.2 ++ r.2.toList)) (st, []))

/-- The delivery attempts the whole program makes: none when startup
failed. -/
def program_deliveries (api_url camera : String) (login : LoginResult)
    (events : List (EventKind × String)) (st : Stats) : List String :=
  match program_run api_url camera login events st with
  | Except.error _ => []
  | Except.ok r => r.2

/-! ### Theorems -/

/-- Running `processBlocks` over fewer than 64 bytes is the identity. -/
theorem processBlocks_of_lt (hs buf : List Nat) (h : buf.length < 64) :
    processBlocks hs buf = (hs, buf) := by
  rw [processBlocks, dif_neg (by omega)]

/-- Greedy block consumption is compositional: finishing a prefix and
then feeding more data reaches the same point as feeding everything at
once. -/
theorem processBlocks_append (l1 l2 hs : List Nat) :
    processBlocks (processBlocks hs l1).1 ((processBlocks hs l1).2 ++ l2) =
      processBlocks hs (l1 ++ l2) := by
  have key : ∀ n l1, List.length l1 ≤ n → ∀ hs,
      processBlocks (processBlocks hs l1).1 ((processBlocks hs l1).2 ++ l2) =
        processBlocks hs (l1 ++ l2) := by
    intro n
    induction n with
    | zero =>
      intro l1 hl hs
      have hnil : l1 = [] := List.eq_nil_of_length_eq_zero (Nat.le_zero.mp hl)
      subst hnil
      rw [processBlocks_of_lt hs [] (by simp)]
    | succ n ih =>
      intro l1 hl hs
      by_cases h64 : 64 ≤ l1.length
      · have hstep : processBlocks hs l1 =
            processBlocks (sha1Compress hs (l1.take 64)) (l1.drop 64) := by
          rw [processBlocks, dif_pos h64]
        have h64' : 64 ≤ (l1 ++ l2).length := by
          simp only [List.length_append]; omega
        have hstep2 : processBlocks hs (l1 ++ l2) =
            processBlocks (sha1Compress hs ((l1 ++ l2).take 64))
              ((l1 ++ l2).drop 64) := by
          rw [processBlocks, dif_pos h64']
        rw [hstep, hstep2, List.take_append_of_le_length h64,
          List.drop_append_of_le_length h64]
        exact ih (l1.drop 64) (by simp only [List.length_drop]; omega)
          (sha1Compress hs (l1.take 64))
      · rw [processBlocks_of_lt hs l1 (by omega)]
  exact key l1.length l1 le_rfl hs

/-- Incremental hashing is append-compatible: two successive `update`
calls reach the same context as one `update` of the concatenation. -/
theorem sha1_update_append (c : Sha1Ctx) (a b : List Nat) :
    sha1_update (sha1_update c a) b = sha1_update c (a ++ b) := by
  have h := processBlocks_append (c.buf ++ a) b c.hs
  simp only [sha1_update, h, List.append_assoc, List.length_append,
    Nat.add_assoc]

/-- An empty update leaves a fresh context unchanged. -/
theorem sha1_update_init_nil : sha1_update sha1_init [] = sha1_init := by
  simp only [sha1_update, sha1_init, List.append_nil, List.length_nil,
    Nat.add_zero]
  rw [processBlocks_of_lt _ _ (by simp)]

/-- The read loop does nothing on empty content (the first read breaks
immediately). -/
theorem hashChunksFrom_nil (k : Nat) (c : Sha1Ctx) :
    hashChunksFrom k c [] = c := by
  rw [hashChunksFrom, dif_pos (Or.inl rfl)]

/-- Streaming non-empty content in chunks of any positive size is the
same as one `update` of the whole content. -/
theorem hashChunksFrom_pos (k : Nat) (hk : 0 < k) :
    ∀ content : List Nat, content ≠ [] → ∀ c : Sha1Ctx,
      hashChunksFrom k c content = sha1_update c content := by
  have key : ∀ n (content : List Nat), content.length ≤ n → content ≠ [] →
      ∀ c, hashChunksFrom k c content = sha1_update c content := by
    intro n
    induction n with
    | zero =>
      intro content hl hne
      exact absurd (List.eq_nil_of_length_eq_zero (Nat.le_zero.mp hl)) hne
    | succ n ih =>
      intro content hl hne c
      rw [hashChunksFrom, dif_neg (by push_neg; exact ⟨hne, by omega⟩)]
      by_cases hrest : content.drop k = []
      · rw [hashChunksFrom, dif_pos (Or.inl hrest)]
        rw [List.take_of_length_le (List.drop_eq_nil_iff.mp hrest)]
      · have hpos : 0 < content.length := List.length_pos.mpr hne
        have hlen : (content.drop k).length ≤ n := by
          simp only [List.length_drop]; omega
        rw [ih (content.drop k) hlen hrest (sha1_update c (content.take k)),
          sha1_update_append, List.take_append_drop]
  exact fun content hne c => key content.length content le_rfl hne c

/-- C7: the Checksum Engine's digest is deterministic (it is a pure
function of the content) and independent of the streaming chunk size:
`segment_checksum` (which reads in chunks of `BUF_SIZE = 1048576`,
watch.py line 78) produces the same lowercase hex digest as hashing the
whole content in a single update and as reading in 1-byte chunks. -/
theorem segment_checksum_chunk_invariant (content : List Nat) :
    segment_checksum content = sha1_hexdigest (sha1_update sha1_init content) ∧
    segment_checksum content = sha1_hexdigest (hashChunksFrom 1 sha1_init content) := by
  by_cases hne : content = []
  · subst hne
    constructor
    · rw [segment_checksum, hashChunksFrom_nil, sha1_update_init_nil]
    · rw [segment_checksum, hashChunksFrom_nil, hashChunksFrom_nil]
  · have h1 := hashChunksFrom_pos 1048576 (by norm_num) content hne sha1_init
    have h2 := hashChunksFrom_pos 1 (by norm_num) content hne sha1_init
    rw [segment_checksum, h1, h2]
    exact ⟨rfl, rfl⟩

/-- A removed file is no longer found. -/
theorem lookup_removeFile (fn : String) (fs : Fs) :
    List.lookup fn (removeFile fn fs) = none := by
  induction fs with
  | nil => rfl
  | cons p t ih =>
    obtain ⟨k, v⟩ := p
    by_cases h : k = fn
    · simpa [removeFile, List.filter_cons, h] using ih
    · have hb : (fn == k) = false := beq_eq_false_iff_ne.mpr (Ne.symm h)
      have hb2 : (k != fn) = true := by
        simp [bne, beq_eq_false_iff_ne.mpr h]
      simpa [removeFile, List.filter_cons, hb2, List.lookup, hb] using ih

/-- The exception of an attempt does not depend on the metrics state. -/
theorem send_attempt_exn_st (sender : Sender) (o : Option Response)
    (fn : String) (fs : Fs) (st st' : Stats) :
    (send_attempt sender o fn fs st).exn =
      (send_attempt sender o fn fs st').exn := by
  cases hL : List.lookup fn fs with
  | none => simp [send_attempt, hL]
  | some content =>
    cases o with
    | none => simp [send_attempt, hL]
    | some r =>
      simp only [send_attempt, hL]
      by_cases h1 : r.checksum = false
      · simp [h1, raise_checksum_exception]
      · by_cases h2 : ¬ r.duration > 0
        · simp [h1, h2, raise_file_store_exception]
        · by_cases h3 : r.db_stored = false
          · simp [h1, h2, h3, raise_db_update_exception]
          · simp [h1, h2, h3]

/-- A raising attempt leaves the filesystem unchanged: the file is
deleted only on the fully successful branch, which returns normally. -/
theorem send_attempt_fail_fs (sender : Sender) (o : Option Response)
    (fn : String) (fs : Fs) (st : Stats)
    (hfail : (send_attempt sender o fn fs st).exn.isSome = true) :
    (send_attempt sender o fn fs st).fs = fs := by
  cases hL : List.lookup fn fs with
  | none => simp [send_attempt, hL]
  | some content =>
    cases o with
    | none => simp [send_attempt, hL]
    | some r =>
      simp only [send_attempt, hL] at hfail ⊢
      by_cases h1 : r.checksum = false
      · simp [h1, raise_checksum_exception]
      · by_cases h2 : ¬ r.duration > 0
        · simp [h1, h2, raise_file_store_exception]
        · by_cases h3 : r.db_stored = false
          · simp [h1, h2, h3, raise_db_update_exception]
          · simp [h1, h2, h3] at hfail

/-- Every backoff wait of the retrying decorator lies in the configured
1000-2000 ms window. -/
theorem retry_wait_bounds (r : Nat) :
    1000 ≤ retry_wait r ∧ retry_wait r ≤ 2000 := by
  unfold retry_wait
  omega

/-- If every attempt on this file raises, the retry loop never returns:
after any number of attempts it is still retrying, the file is intact,
and every wait was within the 1000-2000 ms window. -/
theorem send_loop_fail (sender : Sender) (oresp : Option Response)
    (fn : String) (fs : Fs)
    (hfail : ∀ st : Stats,
      (send_attempt sender oresp fn fs st).exn.isSome = true) :
    ∀ (fuel : Nat) (rand : Nat → Nat) (i : Nat) (st : Stats), ∃ st' ws,
      send sender (fun _ => oresp) rand fn i (fuel + 1) fs st =
        LoopResult.running fs st' ws ∧ ws.length = fuel + 1 ∧
        ∀ w ∈ ws, 1000 ≤ w ∧ w ≤ 2000 := by
  intro fuel
  induction fuel with
  | zero =>
    intro rand i st
    obtain ⟨e, he⟩ := Option.isSome_iff_exists.mp (hfail st)
    have hfs := send_attempt_fail_fs sender oresp fn fs st (hfail st)
    refine ⟨(send_attempt sender oresp fn fs st).st,
      [retry_wait (rand i)], ?_, rfl, ?_⟩
    · simp only [send, he]
      rw [hfs]
    · intro w hw
      simp only [List.mem_singleton] at hw
      subst hw
      exact retry_wait_bounds (rand i)
  | succ n ih =>
    intro rand i st
    obtain ⟨e, he⟩ := Option.isSome_iff_exists.mp (hfail st)
    have hfs := send_attempt_fail_fs sender oresp fn fs st (hfail st)
    obtain ⟨st', ws, heq, hlen, hb⟩ :=
      ih rand (i + 1) (send_attempt sender oresp fn fs st).st
    refine ⟨st', retry_wait (rand i) :: ws, ?_, by simp [hlen], ?_⟩
    · conv_lhs => rw [send]
      simp only [he]
      rw [hfs, heq]
    · intro w hw
      rcases List.mem_cons.mp hw with h | h
      · subst h
        exact retry_wait_bounds (rand i)
      · exact hb w h

/-- C5 (amended): for every delivery-attempt failure that raises an
exception — file-not-found, network/JSON error, or a classified
ChecksumRejected / NotYetDurable failure — the local file is not
deleted, and the retry loop schedules further attempts with every
backoff wait within the configured 1000-2000 ms window and no maximum
attempt count: after any number of attempts it is still retrying.
The third classified non-success outcome, DbNotUpdated, is excluded:
its helper raises nothing, so the code makes no further attempt there
(see the counterexample below and C1/C10). -/
theorem send_failure_retry_policy (sender : Sender) (oresp : Option Response)
    (fn : String) (fs : Fs) (st : Stats)
    (hfail : (send_attempt sender oresp fn fs st).exn.isSome = true) :
    (send_attempt sender oresp fn fs st).fs = fs ∧
    ∀ (rand : Nat → Nat) (i fuel : Nat), ∃ st' ws,
      send sender (fun _ => oresp) rand fn i (fuel + 1) fs st =
        LoopResult.running fs st' ws ∧ ws.length = fuel + 1 ∧
        ∀ w ∈ ws, 1000 ≤ w ∧ w ≤ 2000 := by
  have hall : ∀ st' : Stats,
      (send_attempt sender oresp fn fs st').exn.isSome = true := by
    intro st'
    rw [← send_attempt_exn_st sender oresp fn fs st st']
    exact hfail
  exact ⟨send_attempt_fail_fs sender oresp fn fs st hfail,
    fun rand i fuel => send_loop_fail sender oresp fn fs hall fuel rand i st⟩

/-- C5 counterexample: not every failure causes a further attempt.
The response (checksum true, duration 5.0, db_stored false) classifies
as DbNotUpdated — one of the three classified non-success outcomes the
original claim quantifies over — yet the attempt raises nothing, and
the retry loop returns after the first attempt with an empty wait list
even though fuel for another attempt remains: no retry is scheduled
(the file is also left in place, so the non-deletion half survives). -/
theorem every_failure_retries_counterexample :
    classify ⟨true, 5, false⟩ = DeliveryOutcome.DbNotUpdated ∧
    (send_attempt ⟨"http://h/", "cam"⟩ (some ⟨true, 5, false⟩) "b.ts"
      [("b.ts", [2])] stats0).exn = none ∧
    send ⟨"http://h/", "cam"⟩ (fun _ => some ⟨true, 5, false⟩) (fun _ => 0)
      "b.ts" 0 2 [("b.ts", [2])] stats0 =
      LoopResult.returned [("b.ts", [2])]
        { stats0 with db_update_exception := 1 } [] :=
  ⟨rfl, rfl, rfl⟩

/-- Witness for the amended C5 at the spec's example response
(checksum true, duration 0.0, db_stored true) on a present file. -/
theorem send_failure_retry_policy_witness :
    (send_attempt ⟨"http://h/", "cam"⟩ (some ⟨true, 0, true⟩) "a.ts"
      [("a.ts", [1])] stats0).exn.isSome = true ∧
    (send_attempt ⟨"http://h/", "cam"⟩ (some ⟨true, 0, true⟩) "a.ts"
      [("a.ts", [1])] stats0).fs = [("a.ts", [1])] ∧
    ∃ st' ws,
      send ⟨"http://h/", "cam"⟩ (fun _ => some ⟨true, 0, true⟩) (fun _ => 0)
        "a.ts" 0 3 [("a.ts", [1])] stats0 =
        LoopResult.running [("a.ts", [1])] st' ws ∧ ws.length = 3 ∧
        ∀ w ∈ ws, 1000 ≤ w ∧ w ≤ 2000 :=
  ⟨by rfl,
   (send_failure_retry_policy ⟨"http://h/", "cam"⟩ (some ⟨true, 0, true⟩)
     "a.ts" [("a.ts", [1])] stats0 (by rfl)).1,
   (send_failure_retry_policy ⟨"http://h/", "cam"⟩ (some ⟨true, 0, true⟩)
     "a.ts" [("a.ts", [1])] stats0 (by rfl)).2 (fun _ => 0) 0 2⟩

/-- On a missing file every attempt raises FileNotFoundError before
uploading anything, and the retry loop retries it forever: filesystem,
metrics and pending upload are all untouched. -/
theorem send_loop_missing (sender : Sender) (oresp : Option Response)
    (fn : String) (fs : Fs) (hmiss : List.lookup fn fs = none) :
    ∀ (fuel : Nat) (rand : Nat → Nat) (i : Nat) (st : Stats), ∃ ws,
      send sender (fun _ => oresp) rand fn i fuel fs st =
        LoopResult.running fs st ws ∧ ws.length = fuel ∧
        ∀ w ∈ ws, 1000 ≤ w ∧ w ≤ 2000 := by
  intro fuel
  induction fuel with
  | zero =>
    intro rand i st
    exact ⟨[], by simp [send], rfl, by simp⟩
  | succ n ih =>
    intro rand i st
    obtain ⟨ws, heq, hlen, hb⟩ := ih rand (i + 1) st
    have hatt : send_attempt sender oresp fn fs st =
        ⟨fs, st, some SendExn.ioError, none⟩ := by
      simp [send_attempt, hmiss]
    refine ⟨retry_wait (rand i) :: ws, ?_, by simp [hlen], ?_⟩
    · conv_lhs => rw [send]
      simp only [hatt]
      rw [heq]
    · intro w hw
      rcases List.mem_cons.mp hw with h | h
      · subst h
        exact retry_wait_bounds (rand i)
      · exact hb w h

/-- C4 (amended): a second `send` on a path whose first call succeeded
(and deleted the file) never re-uploads and never deletes anything, and
the file-not-found error does not escape to the caller — but the code
does not drop the duplicate attempt: the retry decorator catches the
FileNotFoundError like any other exception and retries indefinitely. -/
theorem duplicate_send_behavior (sender : Sender) (oresp : Option Response)
    (fn : String) (fs : Fs) (st : Stats)
    (hmiss : List.lookup fn fs = none) :
    send_attempt sender oresp fn fs st = ⟨fs, st, some SendExn.ioError, none⟩ ∧
    ∀ (rand : Nat → Nat) (i fuel : Nat), ∃ ws,
      send sender (fun _ => oresp) rand fn i fuel fs st =
        LoopResult.running fs st ws ∧ ws.length = fuel ∧
        ∀ w ∈ ws, 1000 ≤ w ∧ w ≤ 2000 := by
  exact ⟨by simp [send_attempt, hmiss],
    fun rand i fuel => send_loop_missing sender oresp fn fs hmiss fuel rand i st⟩

/-- Witness for the amended C4. -/
theorem duplicate_send_behavior_witness :
    List.lookup "gone.ts" ([] : Fs) = none ∧
    send_attempt ⟨"http://h/", "cam"⟩ (some ⟨true, 4, true⟩) "gone.ts" [] stats0 =
      ⟨[], stats0, some SendExn.ioError, none⟩ ∧
    ∃ ws,
      send ⟨"http://h/", "cam"⟩ (fun _ => some ⟨true, 4, true⟩) (fun _ => 0)
        "gone.ts" 0 2 [] stats0 = LoopResult.running [] stats0 ws ∧
      ws.length = 2 ∧ ∀ w ∈ ws, 1000 ≤ w ∧ w ≤ 2000 :=
  ⟨rfl,
   (duplicate_send_behavior ⟨"http://h/", "cam"⟩ (some ⟨true, 4, true⟩)
     "gone.ts" [] stats0 rfl).1,
   (duplicate_send_behavior ⟨"http://h/", "cam"⟩ (some ⟨true, 4, true⟩)
     "gone.ts" [] stats0 rfl).2 (fun _ => 0) 0 2⟩

/-- C4 counterexample: after a first, successful `send` has deleted
segment001.ts, a second `send` of the same path does not fail fast and
drop the duplicate — its attempt raises FileNotFoundError and the retry
loop is still retrying (three backoff waits after three attempts)
instead of dropping the attempt. -/
theorem duplicate_send_retries_counterexample :
    (send_attempt ⟨"http://h/", "cam"⟩ (some ⟨true, 4, true⟩) "segment001.ts"
      [("segment001.ts", [7])] stats0).exn = none ∧
    (send_attempt ⟨"http://h/", "cam"⟩ (some ⟨true, 4, true⟩) "segment001.ts"
      [("segment001.ts", [7])] stats0).fs = [] ∧
    (send_attempt ⟨"http://h/", "cam"⟩ (some ⟨true, 4, true⟩) "segment001.ts" []
      (send_attempt ⟨"http://h/", "cam"⟩ (some ⟨true, 4, true⟩) "segment001.ts"
        [("segment001.ts", [7])] stats0).st).exn = some SendExn.ioError ∧
    send ⟨"http://h/", "cam"⟩ (fun _ => some ⟨true, 4, true⟩) (fun _ => 0)
      "segment001.ts" 0 3 []
      (send_attempt ⟨"http://h/", "cam"⟩ (some ⟨true, 4, true⟩) "segment001.ts"
        [("segment001.ts", [7])] stats0).st =
      LoopResult.running []
        (send_attempt ⟨"http://h/", "cam"⟩ (some ⟨true, 4, true⟩) "segment001.ts"
          [("segment001.ts", [7])] stats0).st [1000, 1000, 1000] :=
  ⟨rfl, rfl, rfl, rfl⟩

/-- C3: on a fully successful acknowledgment (checksum true, positive
duration, db_stored true — e.g. duration 3.99) `send` deletes the
source file, increments the success counter exactly once, returns on
the first attempt with no retries, and the file no longer exists. -/
theorem send_success_deletes_and_counts (sender : Sender) (d : Rat)
    (fn : String) (fs : Fs) (st : Stats) (content : List Nat)
    (hfile : List.lookup fn fs = some content) (hd : 0 < d) :
    (send_attempt sender (some ⟨true, d, true⟩) fn fs st).exn = none ∧
    List.lookup fn (send_attempt sender (some ⟨true, d, true⟩) fn fs st).fs =
      none ∧
    (send_attempt sender (some ⟨true, d, true⟩) fn fs st).st.segment_sent =
      st.segment_sent + 1 ∧
    ∀ (rand : Nat → Nat) (i fuel : Nat),
      send sender (fun _ => some ⟨true, d, true⟩) rand fn i (fuel + 1) fs st =
        LoopResult.returned (removeFile fn fs)
          { st with segment_sent := st.segment_sent + 1,
                    remote_segment_duration := some d } [] := by
  have hout : send_attempt sender (some ⟨true, d, true⟩) fn fs st =
      ⟨removeFile fn fs,
       { st with segment_sent := st.segment_sent + 1,
                 remote_segment_duration := some d },
       none,
       some (upload_request sender.api_url sender.camera content
         (segment_checksum content))⟩ := by
    simp only [send_attempt, hfile]
    rw [if_neg (by simp), if_neg (not_not_intro hd)]
    simp
  refine ⟨by rw [hout], ?_, by rw [hout], ?_⟩
  · rw [hout]
    exact lookup_removeFile fn fs
  · intro rand i fuel
    conv_lhs => rw [send]
    simp only [hout]

/-- Witness for C3 at the spec's example response
(checksum true, duration 3.99, db_stored true). -/
theorem send_success_deletes_and_counts_witness :
    List.lookup "a.ts" ([("a.ts", [1, 2])] : Fs) = some [1, 2] ∧
    (0 : Rat) < 399 / 100 ∧
    (send_attempt ⟨"http://h/", "cam"⟩ (some ⟨true, 399 / 100, true⟩) "a.ts"
      [("a.ts", [1, 2])] stats0).exn = none ∧
    List.lookup "a.ts" (send_attempt ⟨"http://h/", "cam"⟩
      (some ⟨true, 399 / 100, true⟩) "a.ts" [("a.ts", [1, 2])] stats0).fs =
      none ∧
    (send_attempt ⟨"http://h/", "cam"⟩ (some ⟨true, 399 / 100, true⟩) "a.ts"
      [("a.ts", [1, 2])] stats0).st.segment_sent = stats0.segment_sent + 1 :=
  ⟨rfl, by norm_num,
   (send_success_deletes_and_counts ⟨"http://h/", "cam"⟩ (399 / 100) "a.ts"
     [("a.ts", [1, 2])] stats0 [1, 2] rfl (by norm_num)).1,
   (send_success_deletes_and_counts ⟨"http://h/", "cam"⟩ (399 / 100) "a.ts"
     [("a.ts", [1, 2])] stats0 [1, 2] rfl (by norm_num)).2.1,
   (send_success_deletes_and_counts ⟨"http://h/", "cam"⟩ (399 / 100) "a.ts"
     [("a.ts", [1, 2])] stats0 [1, 2] rfl (by norm_num)).2.2.1⟩

/-- C10: on an acknowledgment with checksum true, positive duration and
db_stored false, `send` returns normally from the first attempt: the
db-update failure counter is incremented but no exception is raised, so
no retry is scheduled and the file is neither deleted nor re-uploaded. -/
theorem db_not_stored_silent_return (sender : Sender) (d : Rat)
    (fn : String) (fs : Fs) (st : Stats) (content : List Nat)
    (hfile : List.lookup fn fs = some content) (hd : 0 < d) :
    (send_attempt sender (some ⟨true, d, false⟩) fn fs st).exn = none ∧
    (send_attempt sender (some ⟨true, d, false⟩) fn fs st).fs = fs ∧
    (send_attempt sender (some ⟨true, d, false⟩) fn fs st).st =
      { st with db_update_exception := st.db_update_exception + 1 } ∧
    ∀ (rand : Nat → Nat) (i fuel : Nat),
      send sender (fun _ => some ⟨true, d, false⟩) rand fn i (fuel + 1) fs st =
        LoopResult.returned fs
          { st with db_update_exception := st.db_update_exception + 1 } [] := by
  have hout : send_attempt sender (some ⟨true, d, false⟩) fn fs st =
      ⟨fs, { st with db_update_exception := st.db_update_exception + 1 },
       none,
       some (upload_request sender.api_url sender.camera content
         (segment_checksum content))⟩ := by
    simp only [send_attempt, hfile]
    rw [if_neg (by simp), if_neg (not_not_intro hd)]
    simp [raise_db_update_exception]
  refine ⟨by rw [hout], by rw [hout], by rw [hout], ?_⟩
  intro rand i fuel
  conv_lhs => rw [send]
  simp only [hout]

/-- Witness for C10. -/
theorem db_not_stored_silent_return_witness :
    List.lookup "a.ts" ([("a.ts", [1])] : Fs) = some [1] ∧
    (0 : Rat) < 5 ∧
    (send_attempt ⟨"http://h/", "cam"⟩ (some ⟨true, 5, false⟩) "a.ts"
      [("a.ts", [1])] stats0).exn = none ∧
    (send_attempt ⟨"http://h/", "cam"⟩ (some ⟨true, 5, false⟩) "a.ts"
      [("a.ts", [1])] stats0).fs = [("a.ts", [1])] ∧
    (send_attempt ⟨"http://h/", "cam"⟩ (some ⟨true, 5, false⟩) "a.ts"
      [("a.ts", [1])] stats0).st =
      { stats0 with db_update_exception := stats0.db_update_exception + 1 } :=
  ⟨rfl, by norm_num,
   (db_not_stored_silent_return ⟨"http://h/", "cam"⟩ 5 "a.ts" [("a.ts", [1])]
     stats0 [1] rfl (by norm_num)).1,
   (db_not_stored_silent_return ⟨"http://h/", "cam"⟩ 5 "a.ts" [("a.ts", [1])]
     stats0 [1] rfl (by norm_num)).2.1,
   (db_not_stored_silent_return ⟨"http://h/", "cam"⟩ 5 "a.ts" [("a.ts", [1])]
     stats0 [1] rfl (by norm_num)).2.2.1⟩

/-- C1 (evidence for the code bug): at the DbNotUpdated outcome
(checksum true, duration 5.0, db_stored false) `send` raises nothing —
`raise_db_update_exception` has no raise statement — so the retry
policy never sees this outcome: the call returns on the first attempt,
the file stays on disk, and only the db.update.exception counter moves.
The other two non-success outcomes do raise their classified failures,
and deletion happens only on the Delivered branch. -/
theorem dbNotUpdated_does_not_raise :
    classify ⟨true, 5, false⟩ = DeliveryOutcome.DbNotUpdated ∧
    (send_attempt ⟨"http://h/", "cam"⟩ (some ⟨false, 5, true⟩) "segment001.ts"
      [("segment001.ts", [7])] stats0).exn = some SendExn.checksumException ∧
    (send_attempt ⟨"http://h/", "cam"⟩ (some ⟨true, 0, true⟩) "segment001.ts"
      [("segment001.ts", [7])] stats0).exn = some SendExn.fileStoreException ∧
    (send_attempt ⟨"http://h/", "cam"⟩ (some ⟨true, 5, false⟩) "segment001.ts"
      [("segment001.ts", [7])] stats0).exn = none ∧
    (send_attempt ⟨"http://h/", "cam"⟩ (some ⟨true, 5, false⟩) "segment001.ts"
      [("segment001.ts", [7])] stats0).fs = [("segment001.ts", [7])] ∧
    (send_attempt ⟨"http://h/", "cam"⟩ (some ⟨true, 5, false⟩) "segment001.ts"
      [("segment001.ts", [7])] stats0).st.db_update_exception = 1 ∧
    send ⟨"http://h/", "cam"⟩ (fun _ => some ⟨true, 5, false⟩) (fun _ => 0)
      "segment001.ts" 0 1 [("segment001.ts", [7])] stats0 =
      LoopResult.returned [("segment001.ts", [7])]
        { stats0 with db_update_exception := 1 } [] :=
  ⟨rfl, rfl, rfl, rfl, rfl, rfl, rfl⟩

/-- C2: the Acknowledgment Interpreter is a pure total function
honoring the fixed priority order of the if/elif chain: a false
checksum wins over everything (the spec's example
checksum false / duration 5.0 / db_stored true classifies as
ChecksumRejected); otherwise a non-positive duration yields
NotYetDurable; otherwise db_stored false yields DbNotUpdated; otherwise
Delivered.  The four characterizations are mutually exclusive and
exhaustive, so exactly one outcome applies to any response. -/
theorem classify_priority_and_totality :
    classify ⟨false, 5, true⟩ = DeliveryOutcome.ChecksumRejected ∧
    ∀ r : Response,
      (classify r = DeliveryOutcome.ChecksumRejected ↔ r.checksum = false) ∧
      (classify r = DeliveryOutcome.NotYetDurable ↔
        r.checksum = true ∧ r.duration ≤ 0) ∧
      (classify r = DeliveryOutcome.DbNotUpdated ↔
        r.checksum = true ∧ 0 < r.duration ∧ r.db_stored = false) ∧
      (classify r = DeliveryOutcome.Delivered ↔
        r.checksum = true ∧ 0 < r.duration ∧ r.db_stored = true) := by
  refine ⟨rfl, fun r => ?_⟩
  obtain ⟨cs, d, db⟩ := r
  by_cases hd : (0 : Rat) < d
  · cases cs <;> cases db <;>
      simp [classify, hd, hd.not_le]
  · cases cs <;> cases db <;>
      simp [classify, hd, not_lt.mp hd]

/-- Witness for C2: a fully successful response classifies as
Delivered, obtained through the characterization. -/
theorem classify_priority_and_totality_witness :
    classify ⟨true, 2, true⟩ = DeliveryOutcome.Delivered :=
  ((classify_priority_and_totality.2 ⟨true, 2, true⟩).2.2.2).mpr
    ⟨rfl, by norm_num, rfl⟩

/-- C6: the dispatcher hands a path to `send` exactly when the event
kind is `closed` and the path matches the `.ts` suffix pattern; a
matching `closed` event increments the file_closed counter and invokes
the delivery; a `modified` event on segment001.ts and a `closed` event
on notes.txt are discarded with no delivery and no state change. -/
theorem dispatch_closed_ts_only :
    (∀ (kind : EventKind) (path : String) (st : Stats),
      ((on_event kind path st).2).isSome = true ↔
        kind = EventKind.closed ∧ matches_ts path = true) ∧
    (∀ (path : String) (st : Stats), matches_ts path = true →
      on_event EventKind.closed path st =
        ({ st with file_closed := st.file_closed + 1 }, some path)) ∧
    (∀ st : Stats,
      on_event EventKind.modified "segment001.ts" st = (st, none)) ∧
    (∀ st : Stats, on_event EventKind.closed "notes.txt" st = (st, none)) := by
  refine ⟨?_, ?_, fun st => rfl, fun st => ?_⟩
  · intro kind path st
    cases kind <;> simp [on_event, on_closed] <;>
      by_cases hm : matches_ts path <;> simp [hm]
  · intro path st hm
    simp [on_event, on_closed, hm]
  · have hm : matches_ts "notes.txt" = false := rfl
    simp [on_event, on_closed, hm]

/-- Witness for C6: a closed event on a matching path dispatches it. -/
theorem dispatch_closed_ts_only_witness :
    on_event EventKind.closed "segment001.ts" stats0 =
      ({ stats0 with file_closed := 1 }, some "segment001.ts") :=
  dispatch_closed_ts_only.2.1 "segment001.ts" stats0 rfl

/-- C8 counterexample: the code builds the upload URL by plain string
concatenation with no slash between the base API URL and the segment
path, so for the base URL http://h/api (no trailing slash) the target
differs from the claimed slash-separated form. -/
theorem upload_url_no_slash_counterexample :
    build_upload_url "http://h/api" "cam0" = "http://h/apisegment/upload/cam0/" ∧
    ¬ build_upload_url "http://h/api" "cam0" =
        "http://h/api" ++ "/segment/upload/" ++ "cam0" ++ "/" := by
  constructor
  · rfl
  · rw [show build_upload_url "http://h/api" "cam0" =
      "http://h/apisegment/upload/cam0/" from rfl]
    simp

/-- C8 (amended): the upload request targets the plain concatenation
of the base API URL with segment/upload/{camera}/ — no separator is
inserted, so the base URL must itself end in a slash — and carries a
multipart body with the raw file bytes under field `segment` and the
computed checksum under field `sha1`. -/
theorem upload_request_shape :
    (∀ (api camera : String) (content : List Nat) (sha1 : String),
      upload_request api camera content sha1 =
        ⟨api ++ "segment/upload/" ++ camera ++ "/",
         [("segment", content)], [("sha1", sha1)]⟩) ∧
    ∀ (sender : Sender) (r : Response) (fn : String) (fs : Fs) (st : Stats)
      (content : List Nat), List.lookup fn fs = some content →
      (send_attempt sender (some r) fn fs st).req =
        some (upload_request sender.api_url sender.camera content
          (segment_checksum content)) := by
  constructor
  · intro api camera content sha1
    rfl
  · intro sender r fn fs st content hfile
    simp only [send_attempt, hfile]
    by_cases h1 : r.checksum = false
    · simp [h1]
    · by_cases h2 : ¬ r.duration > 0
      · simp [h1, h2]
      · by_cases h3 : r.db_stored = false
        · simp [h1, h2, h3]
        · simp [h1, h2, h3]

/-- Witness for the amended C8. -/
theorem upload_request_shape_witness :
    List.lookup "a.ts" ([("a.ts", [1])] : Fs) = some [1] ∧
    (send_attempt ⟨"http://h/", "cam"⟩ (some ⟨true, 5, true⟩) "a.ts"
      [("a.ts", [1])] stats0).req =
      some (upload_request "http://h/" "cam" [1] (segment_checksum [1])) :=
  ⟨rfl, upload_request_shape.2 ⟨"http://h/", "cam"⟩ ⟨true, 5, true⟩ "a.ts"
    [("a.ts", [1])] stats0 [1] rfl⟩

/-- C9: if obtaining the session token at startup fails — the login
call errors, returns a non-JSON body, or returns JSON without a
"token" key — session construction raises, nothing retries it, the
process run is an error (non-zero exit) and no delivery attempt is
ever made. -/
theorem login_failure_fatal :
    (∀ (api camera : String) (login : LoginResult)
      (events : List (EventKind × String)) (st : Stats),
      (_api_session login).isOk = false →
      (program_run api camera login events st).isOk = false ∧
      program_deliveries api camera login events st = []) ∧
    (_api_session LoginResult.netError).isOk = false ∧
    ∀ fields : List (String × String), List.lookup "token" fields = none →
      (_api_session (LoginResult.json fields)).isOk = false := by
  refine ⟨?_, rfl, ?_⟩
  · intro api camera login events st hfailed
    cases hs : _api_session login with
    | ok s =>
      rw [hs] at hfailed
      simp [Except.isOk, Except.toBool] at hfailed
    | error e =>
      constructor
      · simp [program_run, segment_sender_init, hs, Except.isOk, Except.toBool]
      · simp [program_deliveries, program_run, segment_sender_init, hs]
  · intro fields hnone
    simp [_api_session, hnone, Except.isOk, Except.toBool]

/-- Witness for C9: a login response whose JSON object has no token
key is fatal and produces no deliveries even with a matching closed
event pending. -/
theorem login_failure_fatal_witness :
    (_api_session (LoginResult.json [])).isOk = false ∧
    (program_run "http://h/" "cam" (LoginResult.json [])
      [(EventKind.closed, "a.ts")] stats0).isOk = false ∧
    program_deliveries "http://h/" "cam" (LoginResult.json [])
      [(EventKind.closed, "a.ts")] stats0 = [] :=
  ⟨rfl,
   (login_failure_fatal.1 "http://h/" "cam" (LoginResult.json [])
     [(EventKind.closed, "a.ts")] stats0 rfl).1,
   (login_failure_fatal.1 "http://h/" "cam" (LoginResult.json [])
     [(EventKind.closed, "a.ts")] stats0 rfl).2⟩
